import Mathlib

/-!
# go-vl6180x: a shallow embedding of the VL6180X driver

The driver (`vl6180x/vl6180x.go`) talks to the sensor through an I2C device
handle.  The handle is an external capability: here it is a record of
transition functions over an arbitrary world state `σ`.  Every driver method
is a state-passing function over `σ`; the three polling loops take a fuel
argument that bounds the number of evaluations of the loop condition.

Bytes and 16-bit words are natural numbers; truncations to a machine width are
written out with `%`.
-/

namespace Vl6180xDriver

/-! ## Register map and constants (`vl6180x.go`, lines 13-64) -/

def VL6180X_DEFAULT_I2C_ADDR : Nat := 0x29
def VL6180X_REG_IDENTIFICATION_MODEL_ID : Nat := 0x000
def VL6180X_REG_SYSTEM_INTERRUPT_CONFIG : Nat := 0x014
def VL6180X_REG_SYSTEM_INTERRUPT_CLEAR : Nat := 0x015
def VL6180X_REG_SYSTEM_FRESH_OUT_OF_RESET : Nat := 0x016
def VL6180X_REG_SYSRANGE_START : Nat := 0x018
def VL6180X_REG_SYSALS_START : Nat := 0x038
def VL6180X_REG_SYSALS_ANALOGUE_GAIN : Nat := 0x03F
def VL6180X_REG_SYSALS_INTEGRATION_PERIOD_HI : Nat := 0x040
def VL6180X_REG_SYSALS_INTEGRATION_PERIOD_LO : Nat := 0x041
def VL6180X_REG_RESULT_RANGE_STATUS : Nat := 0x04d
def VL6180X_REG_RESULT_INTERRUPT_STATUS_GPIO : Nat := 0x04f
def VL6180X_REG_RESULT_ALS_VAL : Nat := 0x050
def VL6180X_REG_RESULT_RANGE_VAL : Nat := 0x062

def VL6180X_ALS_GAIN_1 : Nat := 0x06
def VL6180X_ALS_GAIN_1_25 : Nat := 0x05
def VL6180X_ALS_GAIN_1_67 : Nat := 0x04
def VL6180X_ALS_GAIN_2_5 : Nat := 0x03
def VL6180X_ALS_GAIN_5 : Nat := 0x02
def VL6180X_ALS_GAIN_10 : Nat := 0x01
def VL6180X_ALS_GAIN_20 : Nat := 0x00
def VL6180X_ALS_GAIN_40 : Nat := 0x07

def VL6180X_ERROR_NONE : Nat := 0
def VL6180X_ERROR_SYSERR_1 : Nat := 1
def VL6180X_ERROR_SYSERR_5 : Nat := 5
def VL6180X_ERROR_ECEFAIL : Nat := 6
def VL6180X_ERROR_NOCONVERGE : Nat := 7
def VL6180X_ERROR_RANGEIGNORE : Nat := 8
def VL6180X_ERROR_SNR : Nat := 11
def VL6180X_ERROR_RAWUFLOW : Nat := 12
def VL6180X_ERROR_RAWOFLOW : Nat := 13
def VL6180X_ERROR_RANGEUFLOW : Nat := 14
def VL6180X_ERROR_RANGEOFLOW : Nat := 15

/-! ## The bus capability -/

/-- A Go `error` value coming back from the bus (an errno). -/
inductive Error where
  | errno (code : Nat)
deriving DecidableEq, Repr

/-- Result of a fallible bus call: Go's `(value, error)` pair, of which the
driver only ever looks at the value when the error is nil. -/
inductive Res (α : Type) where
  | ok (a : α)
  | error (e : Error)
deriving DecidableEq, Repr

/-- The I2C device handle used by the driver (`i2c.I2C` of the imported bus
package): opening the device node, reading one byte from an 8-bit register
address, and writing a raw buffer.  `σ` is the state of the world behind the
handle (device registers, bus, kernel), changed by every call. -/
structure I2C (σ : Type) where
  /-- Models `i2c.NewI2C(addr, bus)`. -/
  NewI2C : Nat → Nat → σ → Res Unit × σ
  /-- Models `(*I2C).ReadRegU8(reg)`. -/
  ReadRegU8 : Nat → σ → Res Nat × σ
  /-- Models `(*I2C).WriteBytes(buf)`; the value is the byte count. -/
  WriteBytes : List Nat → σ → Res Nat × σ

/-- One call made on the device handle. -/
inductive BusOp where
  | newI2C (addr bus : Nat)
  | readRegU8 (reg : Nat)
  | writeBytes (buf : List Nat)
deriving DecidableEq, Repr

/-- The same handle with a recorder in front of it: every call is appended to
a log kept next to the world state, and then passed on unchanged. -/
def I2C.traced {σ : Type} (T : I2C σ) : I2C (σ × List BusOp) where
  NewI2C addr bus st :=
    ((T.NewI2C addr bus st.1).1, ((T.NewI2C addr bus st.1).2, st.2 ++ [BusOp.newI2C addr bus]))
  ReadRegU8 reg st :=
    ((T.ReadRegU8 reg st.1).1, ((T.ReadRegU8 reg st.1).2, st.2 ++ [BusOp.readRegU8 reg]))
  WriteBytes buf st :=
    ((T.WriteBytes buf st.1).1, ((T.WriteBytes buf st.1).2, st.2 ++ [BusOp.writeBytes buf]))

/-- The buffers of the write calls of a log, in order. -/
def writesOf : List BusOp → List (List Nat)
  | [] => []
  | BusOp.writeBytes buf :: ops => buf :: writesOf ops
  | _ :: ops => writesOf ops

/-! ## Control outcomes -/

/-- How a driver method ends: it returns a value, the process is terminated by
`log.Fatal`, or (fuel exhausted) it is still inside a polling loop. -/
inductive Outcome (σ α : Type) where
  | ret (a : α) (s : σ)
  | fatal (s : σ)
  | polling (s : σ)
deriving DecidableEq, Repr

/-- World state at the end of the run. -/
def Outcome.state {σ α : Type} : Outcome σ α → σ
  | .ret _ s => s
  | .fatal s => s
  | .polling s => s

/-- Sequencing: continue with `f` once the first part has returned. -/
def Outcome.bind {σ α β : Type} (o : Outcome σ α) (f : α → σ → Outcome σ β) : Outcome σ β :=
  match o with
  | .ret a s => f a s
  | .fatal s => .fatal s
  | .polling s => .polling s

/-- Go's `for cond() { }` with a body that only logs: evaluate the condition,
leave the loop when it is false, go round again when it is true.  `fuel`
bounds the number of evaluations of the condition. -/
def forLoop {σ : Type} (cond : σ → Outcome σ Bool) : Nat → σ → Outcome σ Unit
  | 0, s => .polling s
  | fuel + 1, s =>
    match cond s with
    | .ret true s1 => forLoop cond fuel s1
    | .ret false s1 => .ret () s1
    | .fatal s1 => .fatal s1
    | .polling s1 => .polling s1

/-! ## The session (`vl6180x.go`) -/

/-- The `Vl6180x` struct.  Its `i2cDevice` pointer is the handle `T` together
with the threaded world state; `ioTimeout` is a `time.Duration` in
nanoseconds. -/
structure Vl6180x where
  i2cAddr : Nat
  ioTimeout : Int
deriving DecidableEq, Repr

/-- Models `binary.Write(buf, binary.LittleEndian, reg)` for a `uint16`: low
byte first, then high byte. -/
def putUint16LittleEndian (reg : Nat) : List Nat :=
  [reg % 256, (reg >>> 8) % 256]

/-- The buffer built by `Vl6180x.Write` (lines 104-106): the register written
with `binary.LittleEndian`, then the value bytes written as they are. -/
def Vl6180x.bytesBuffer (reg : Nat) (value : List Nat) : List Nat :=
  putUint16LittleEndian reg ++ value

/-- Models `Vl6180x.Write` (lines 103-115): the buffer is handed to
`WriteBytes`; the transport error, if any, is returned. -/
def Vl6180x.Write {σ : Type} (T : I2C σ) (_v : Vl6180x) (reg : Nat) (value : List Nat)
    (s : σ) : Option Error × σ :=
  match T.WriteBytes (Vl6180x.bytesBuffer reg value) s with
  | (.error err, s1) => (some err, s1)
  | (.ok _, s1) => (none, s1)

/-- Models `Vl6180x.WriteByte` (lines 99-101). -/
def Vl6180x.WriteByte {σ : Type} (T : I2C σ) (v : Vl6180x) (reg : Nat) (value : Nat)
    (s : σ) : Option Error × σ :=
  Vl6180x.Write T v reg [value] s

/-- Models `Vl6180x.ReadByte` (lines 178-187): a failed read ends in
`log.Fatal`. -/
def Vl6180x.ReadByte {σ : Type} (T : I2C σ) (_v : Vl6180x) (reg : Nat) (s : σ) :
    Outcome σ Nat :=
  match T.ReadRegU8 reg s with
  | (.error _, s1) => .fatal s1
  | (.ok data, s1) => .ret data s1

/-- Models `NewVl6180x` (lines 72-93): open the bus at 0x29 on bus 0, read the
model id, return nil (`none`) unless it is 0xB4. -/
def NewVl6180x {σ : Type} (T : I2C σ) (i2cAddr : Nat) (s : σ) : Outcome σ (Option Vl6180x) :=
  let v : Vl6180x := { i2cAddr := i2cAddr, ioTimeout := 0 }
  match T.NewI2C 0x29 0 s with
  | (.error _, s1) => .fatal s1
  | (.ok _, s1) =>
    match T.ReadRegU8 VL6180X_REG_IDENTIFICATION_MODEL_ID s1 with
    | (.error _, s2) => .fatal s2
    | (.ok modelId, s2) =>
      if modelId != 0xB4 then .ret none s2 else .ret (some v) s2

/-- Models `Vl6180x.ReadRangeStatus` (lines 197-199). -/
def Vl6180x.ReadRangeStatus {σ : Type} (T : I2C σ) (v : Vl6180x) (s : σ) : Outcome σ Nat :=
  (Vl6180x.ReadByte T v VL6180X_REG_RESULT_RANGE_STATUS s).bind fun b s1 =>
  .ret (b >>> 4) s1

/-- Models `Vl6180x.ReadRange` (lines 230-249).  The results of the two
`WriteByte` calls are dropped, as in the source. -/
def Vl6180x.ReadRange {σ : Type} (T : I2C σ) (fuel : Nat) (v : Vl6180x) (s : σ) :
    Outcome σ Nat :=
  (forLoop (fun s => (Vl6180x.ReadByte T v VL6180X_REG_RESULT_RANGE_STATUS s).bind
      fun b s1 => .ret (b &&& 0x01 == 0) s1) fuel s).bind fun _ s =>
  let s := (Vl6180x.WriteByte T v VL6180X_REG_SYSRANGE_START 0x01 s).2
  (forLoop (fun s => (Vl6180x.ReadByte T v VL6180X_REG_RESULT_INTERRUPT_STATUS_GPIO s).bind
      fun b s1 => .ret (b &&& 0x04 == 0) s1) fuel s).bind fun _ s =>
  (Vl6180x.ReadByte T v VL6180X_REG_RESULT_RANGE_VAL s).bind fun result s =>
  let s := (Vl6180x.WriteByte T v VL6180X_REG_SYSTEM_INTERRUPT_CLEAR 0x07 s).2
  .ret result s

/-- Models `Vl6180x.ReadLux` (lines 201-228).  `^byte(0x38)` is `0xFF ^^^ 0x38`. -/
def Vl6180x.ReadLux {σ : Type} (T : I2C σ) (fuel : Nat) (v : Vl6180x) (gain : Nat) (s : σ) :
    Outcome σ Unit :=
  (Vl6180x.ReadByte T v VL6180X_REG_SYSTEM_INTERRUPT_CONFIG s).bind fun reg s =>
  let reg := reg &&& (0xFF ^^^ 0x38)
  let reg := reg ||| (0x04 <<< 3)
  let s := (Vl6180x.WriteByte T v VL6180X_REG_SYSTEM_INTERRUPT_CONFIG reg s).2
  let s := (Vl6180x.WriteByte T v VL6180X_REG_SYSALS_INTEGRATION_PERIOD_HI 0 s).2
  let s := (Vl6180x.WriteByte T v VL6180X_REG_SYSALS_INTEGRATION_PERIOD_LO 100 s).2
  let gain := if gain > VL6180X_ALS_GAIN_40 then VL6180X_ALS_GAIN_40 else gain
  let s := (Vl6180x.WriteByte T v VL6180X_REG_SYSALS_ANALOGUE_GAIN (0x40 ||| gain) s).2
  let s := (Vl6180x.WriteByte T v VL6180X_REG_SYSALS_START 0x01 s).2
  forLoop (fun s => (Vl6180x.ReadByte T v VL6180X_REG_RESULT_INTERRUPT_STATUS_GPIO s).bind
      fun b s1 => .ret (((b >>> 3) &&& 0x07) != 4) s1) fuel s

/-- Models `Vl6180x.setTimeout` (lines 255-257). -/
def Vl6180x.setTimeout (v : Vl6180x) (timeout : Int) : Vl6180x :=
  { v with ioTimeout := timeout }

/-- Models `Vl6180x.Init` (lines 259-263): one second, in nanoseconds; the
returned error is always nil. -/
def Vl6180x.Init (v : Vl6180x) : Option Error × Vl6180x :=
  (none, v.setTimeout (1000000 * 1000))

/-- Models `I2C.uint16LE` of `i2c.go` (lines 90-96): high byte first. -/
def uint16LE (reg : Nat) : List Nat :=
  [(reg >>> 8) &&& 0x00FF, reg &&& 0x00FF]

/-- Models `Vl6180x.loadSettings` (lines 117-176): thirty-nine `WriteByte`
calls in source order, each result dropped; the function returns nothing. -/
def Vl6180x.loadSettings {σ : Type} (T : I2C σ) (v : Vl6180x) (s : σ) : σ :=
  let s := (Vl6180x.WriteByte T v 0x0207 0x01 s).2
  let s := (Vl6180x.WriteByte T v 0x0208 0x01 s).2
  let s := (Vl6180x.WriteByte T v 0x0096 0x00 s).2
  let s := (Vl6180x.WriteByte T v 0x0097 0xfd s).2
  let s := (Vl6180x.WriteByte T v 0x00e3 0x00 s).2
  let s := (Vl6180x.WriteByte T v 0x00e4 0x04 s).2
  let s := (Vl6180x.WriteByte T v 0x00e5 0x02 s).2
  let s := (Vl6180x.WriteByte T v 0x00e6 0x01 s).2
  let s := (Vl6180x.WriteByte T v 0x00e7 0x03 s).2
  let s := (Vl6180x.WriteByte T v 0x00f5 0x02 s).2
  let s := (Vl6180x.WriteByte T v 0x00d9 0x05 s).2
  let s := (Vl6180x.WriteByte T v 0x00db 0xce s).2
  let s := (Vl6180x.WriteByte T v 0x00dc 0x03 s).2
  let s := (Vl6180x.WriteByte T v 0x00dd 0xf8 s).2
  let s := (Vl6180x.WriteByte T v 0x009f 0x00 s).2
  let s := (Vl6180x.WriteByte T v 0x00a3 0x3c s).2
  let s := (Vl6180x.WriteByte T v 0x00b7 0x00 s).2
  let s := (Vl6180x.WriteByte T v 0x00bb 0x3c s).2
  let s := (Vl6180x.WriteByte T v 0x00b2 0x09 s).2
  let s := (Vl6180x.WriteByte T v 0x00ca 0x09 s).2
  let s := (Vl6180x.WriteByte T v 0x0198 0x01 s).2
  let s := (Vl6180x.WriteByte T v 0x01b0 0x17 s).2
  let s := (Vl6180x.WriteByte T v 0x01ad 0x00 s).2
  let s := (Vl6180x.WriteByte T v 0x00ff 0x05 s).2
  let s := (Vl6180x.WriteByte T v 0x0100 0x05 s).2
  let s := (Vl6180x.WriteByte T v 0x0199 0x05 s).2
  let s := (Vl6180x.WriteByte T v 0x01a6 0x1b s).2
  let s := (Vl6180x.WriteByte T v 0x01ac 0x3e s).2
  let s := (Vl6180x.WriteByte T v 0x01a7 0x1f s).2
  let s := (Vl6180x.WriteByte T v 0x0030 0x00 s).2
  let s := (Vl6180x.WriteByte T v 0x0011 0x10 s).2
  let s := (Vl6180x.WriteByte T v 0x010a 0x30 s).2
  let s := (Vl6180x.WriteByte T v 0x003f 0x46 s).2
  let s := (Vl6180x.WriteByte T v 0x0031 0xFF s).2
  let s := (Vl6180x.WriteByte T v 0x0040 0x63 s).2
  let s := (Vl6180x.WriteByte T v 0x002e 0x01 s).2
  let s := (Vl6180x.WriteByte T v 0x001b 0x09 s).2
  let s := (Vl6180x.WriteByte T v 0x003e 0x31 s).2
  let s := (Vl6180x.WriteByte T v 0x0014 0x24 s).2
  s

/-- The (address, value) arguments of the `WriteByte` calls of `loadSettings`,
in source order. -/
def settings : List (Nat × Nat) :=
  [
   (0x0207, 0x01), (0x0208, 0x01), (0x0096, 0x00), (0x0097, 0xfd),
   (0x00e3, 0x00), (0x00e4, 0x04), (0x00e5, 0x02), (0x00e6, 0x01),
   (0x00e7, 0x03), (0x00f5, 0x02), (0x00d9, 0x05), (0x00db, 0xce),
   (0x00dc, 0x03), (0x00dd, 0xf8), (0x009f, 0x00), (0x00a3, 0x3c),
   (0x00b7, 0x00), (0x00bb, 0x3c), (0x00b2, 0x09), (0x00ca, 0x09),
   (0x0198, 0x01), (0x01b0, 0x17), (0x01ad, 0x00), (0x00ff, 0x05),
   (0x0100, 0x05), (0x0199, 0x05), (0x01a6, 0x1b), (0x01ac, 0x3e),
   (0x01a7, 0x1f), (0x0030, 0x00), (0x0011, 0x10), (0x010a, 0x30),
   (0x003f, 0x46), (0x0031, 0xFF), (0x0040, 0x63), (0x002e, 0x01),
   (0x001b, 0x09), (0x003e, 0x31), (0x0014, 0x24)]

/-! ## Simulated transports -/

/-- Address decoding of a device that takes the high address byte first. -/
def highByteFirst (a0 a1 : Nat) : Nat := a0 * 256 + a1

/-- Store consecutive bytes from address `a` upwards. -/
def storeFrom (regs : Nat → Nat) : Nat → List Nat → Nat → Nat
  | _, [] => regs
  | a, x :: xs => storeFrom (Function.update regs a x) (a + 1) xs

/-- A register file as transport: every call succeeds; a read returns the
register content; a write buffer is two address bytes, decoded by `addrOf`,
followed by the data stored from that address upwards. -/
def regFile (addrOf : Nat → Nat → Nat) : I2C (Nat → Nat) where
  NewI2C _ _ regs := (.ok (), regs)
  ReadRegU8 reg regs := (.ok (regs reg), regs)
  WriteBytes buf regs :=
    match buf with
    | a0 :: a1 :: data => (.ok buf.length, storeFrom regs (addrOf a0 a1) data)
    | _ => (.ok buf.length, regs)

/-- Register contents with one register set and all others zero. -/
def oneReg (reg val : Nat) : Nat → Nat :=
  fun a => if a = reg then val else 0

/-- A scripted sensor; the state counts the reads made so far.  The range
status register 0x4d shows "ready" (bit 0, status nibble 0) from the third
read on, the interrupt status register 0x4f shows the range interrupt (bit 2)
from the sixth read on, the range value register 0x62 holds 0x64 and the model
id register holds 0xB4.  Writes succeed and change nothing. -/
def simSensor : I2C Nat where
  NewI2C _ _ n := (.ok (), n)
  ReadRegU8 reg n :=
    (.ok (if reg = 0x4d then (if n < 2 then 0x00 else 0x01)
          else if reg = 0x4f then (if n < 5 then 0x00 else 0x04)
          else if reg = 0x62 then 0x64
          else if reg = 0x00 then 0xB4
          else 0x00), n + 1)
  WriteBytes buf n := (.ok buf.length, n)

/-- A wedged sensor: every read succeeds and returns 0x00, so no readiness bit
is ever set; writes succeed. -/
def stuckSensor : I2C Unit where
  NewI2C _ _ u := (.ok (), u)
  ReadRegU8 _ u := (.ok 0x00, u)
  WriteBytes buf u := (.ok buf.length, u)

/-- A bus on which the third write fails with errno 5; the state counts the
writes attempted so far. -/
def flakyBus : I2C Nat where
  NewI2C _ _ n := (.ok (), n)
  ReadRegU8 _ n := (.ok 0x00, n)
  WriteBytes buf n := (if n = 2 then .error (.errno 5) else .ok buf.length, n + 1)

/-! ## Describing what a transport does under polling -/

/-- World state after `n` consecutive reads of register `reg`. -/
def afterReads {σ : Type} (T : I2C σ) (reg : Nat) : Nat → σ → σ
  | 0, s => s
  | n + 1, s => afterReads T reg n (T.ReadRegU8 reg s).2

/-- The poll of `reg` succeeds at read number `n + 1`: the first `n` reads
succeed with a byte on which the loop goes on (`busy`), and the next read
succeeds with a byte on which the loop is left. -/
def readyAfter {σ : Type} (T : I2C σ) (reg : Nat) (busy : Nat → Bool) : Nat → σ → Bool
  | 0, s =>
    match T.ReadRegU8 reg s with
    | (.ok b, _) => !busy b
    | (.error _, _) => false
  | n + 1, s =>
    match T.ReadRegU8 reg s with
    | (.ok b, s1) => busy b && readyAfter T reg busy n s1
    | (.error _, _) => false

/-- The poll of `reg` never succeeds: every read succeeds with a byte on which
the loop goes on. -/
def neverReady {σ : Type} (T : I2C σ) (reg : Nat) (busy : Nat → Bool) (s : σ) : Prop :=
  ∀ n, ∃ b, (T.ReadRegU8 reg (afterReads T reg n s)).1 = .ok b ∧ busy b = true

/-- World state of `ReadRange` right after the range-start write, when the
first poll needed `n1 + 1` reads. -/
def rangeStarted {σ : Type} (T : I2C σ) (n1 : Nat) (s : σ) : σ :=
  (T.WriteBytes (Vl6180x.bytesBuffer VL6180X_REG_SYSRANGE_START [0x01])
    (afterReads T VL6180X_REG_RESULT_RANGE_STATUS (n1 + 1) s)).2

/-- World state of `ReadRange` when the second poll has succeeded after
`n2 + 1` reads: the state in which the range value register is read. -/
def rangeReady {σ : Type} (T : I2C σ) (n1 n2 : Nat) (s : σ) : σ :=
  afterReads T VL6180X_REG_RESULT_INTERRUPT_STATUS_GPIO (n2 + 1) (rangeStarted T n1 s)

/-! ## Polling lemmas -/

section Polling

variable {σ : Type}

theorem afterReads_succ (T : I2C σ) (reg n : Nat) (s : σ) :
    afterReads T reg (n + 1) s = (T.ReadRegU8 reg (afterReads T reg n s)).2 := by
  induction n generalizing s with
  | zero => rfl
  | succ k ih =>
    show afterReads T reg (k + 1) (T.ReadRegU8 reg s).2 = _
    rw [ih]
    rfl

/-- A poll that succeeds at read `n + 1` returns as soon as the fuel exceeds
`n`, in the state reached by those reads. -/
theorem forLoop_ready (T : I2C σ) (v : Vl6180x) (reg : Nat) (busy : Nat → Bool) :
    ∀ (n fuel : Nat) (s : σ), readyAfter T reg busy n s = true → n < fuel →
      forLoop (fun s => (Vl6180x.ReadByte T v reg s).bind fun b s1 => .ret (busy b) s1) fuel s
        = .ret () (afterReads T reg (n + 1) s) := by
  intro n
  induction n with
  | zero =>
    intro fuel s h hf
    obtain ⟨f, rfl⟩ : ∃ f, fuel = f + 1 := ⟨fuel - 1, by omega⟩
    simp only [readyAfter] at h
    simp only [forLoop, Vl6180x.ReadByte, afterReads]
    rcases hr : T.ReadRegU8 reg s with ⟨r, s1⟩
    rw [hr] at h
    cases r with
    | error e => simp at h
    | ok b =>
      have hb : busy b = false := by simpa using h
      simp [Outcome.bind, hb]
  | succ k ih =>
    intro fuel s h hf
    obtain ⟨f, rfl⟩ : ∃ f, fuel = f + 1 := ⟨fuel - 1, by omega⟩
    simp only [readyAfter] at h
    rcases hr : T.ReadRegU8 reg s with ⟨r, s1⟩
    rw [hr] at h
    cases r with
    | error e => simp at h
    | ok b =>
      have hb : busy b = true ∧ readyAfter T reg busy k s1 = true := by simpa using h
      have hk := ih f s1 hb.2 (by omega)
      have hs : afterReads T reg (k + 1 + 1) s = afterReads T reg (k + 1) s1 := by
        show afterReads T reg (k + 1) (T.ReadRegU8 reg s).2 = _
        rw [hr]
      rw [hs, ← hk]
      simp only [forLoop, Vl6180x.ReadByte, hr, Outcome.bind, hb.1]

theorem neverReady_step (T : I2C σ) (reg : Nat) (busy : Nat → Bool) (s : σ)
    (h : neverReady T reg busy s) : neverReady T reg busy (T.ReadRegU8 reg s).2 :=
  fun n => h (n + 1)

/-- A poll that never succeeds is still polling when the fuel runs out,
whatever the fuel, having made one read per unit of fuel. -/
theorem forLoop_never (T : I2C σ) (v : Vl6180x) (reg : Nat) (busy : Nat → Bool) :
    ∀ (fuel : Nat) (s : σ), neverReady T reg busy s →
      forLoop (fun s => (Vl6180x.ReadByte T v reg s).bind fun b s1 => .ret (busy b) s1) fuel s
        = .polling (afterReads T reg fuel s) := by
  intro fuel
  induction fuel with
  | zero => intro s _; rfl
  | succ f ih =>
    intro s h
    obtain ⟨b, hb, hbusy⟩ := h 0
    have hk := ih _ (neverReady_step T reg busy s h)
    rcases hr : T.ReadRegU8 reg s with ⟨r, s1⟩
    simp only [afterReads, hr] at hb hk ⊢
    subst hb
    simp only [forLoop, Vl6180x.ReadByte, hr, Outcome.bind, hbusy]
    exact hk

end Polling

/-! ## The recorder is transparent -/

section Traced

variable {σ : Type}

theorem traced_ReadRegU8 (T : I2C σ) (reg : Nat) (st : σ × List BusOp) :
    T.traced.ReadRegU8 reg st
      = ((T.ReadRegU8 reg st.1).1, ((T.ReadRegU8 reg st.1).2, st.2 ++ [BusOp.readRegU8 reg])) :=
  rfl

theorem traced_WriteBytes (T : I2C σ) (buf : List Nat) (st : σ × List BusOp) :
    T.traced.WriteBytes buf st
      = ((T.WriteBytes buf st.1).1, ((T.WriteBytes buf st.1).2, st.2 ++ [BusOp.writeBytes buf])) :=
  rfl

theorem traced_NewI2C (T : I2C σ) (addr bus : Nat) (st : σ × List BusOp) :
    T.traced.NewI2C addr bus st
      = ((T.NewI2C addr bus st.1).1, ((T.NewI2C addr bus st.1).2, st.2 ++ [BusOp.newI2C addr bus])) :=
  rfl

theorem bind_ret {α β : Type} (a : α) (s : σ) (f : α → σ → Outcome σ β) :
    (Outcome.ret a s).bind f = f a s :=
  rfl

theorem traced_afterReads (T : I2C σ) (reg : Nat) :
    ∀ (n : Nat) (st : σ × List BusOp),
      afterReads T.traced reg n st
        = (afterReads T reg n st.1, st.2 ++ List.replicate n (BusOp.readRegU8 reg)) := by
  intro n
  induction n with
  | zero => intro st; simp [afterReads]
  | succ k ih =>
    intro st
    simp only [afterReads, traced_ReadRegU8, ih, List.replicate_succ, List.append_assoc,
      List.singleton_append]

theorem traced_readyAfter (T : I2C σ) (reg : Nat) (busy : Nat → Bool) :
    ∀ (n : Nat) (st : σ × List BusOp),
      readyAfter T.traced reg busy n st = readyAfter T reg busy n st.1 := by
  intro n
  induction n with
  | zero =>
    intro st
    simp only [readyAfter, traced_ReadRegU8]
    rcases T.ReadRegU8 reg st.1 with ⟨r, s1⟩
    cases r <;> rfl
  | succ k ih =>
    intro st
    simp only [readyAfter, traced_ReadRegU8]
    rcases T.ReadRegU8 reg st.1 with ⟨r, s1⟩
    cases r
    · simp only [ih]
    · rfl

theorem traced_neverReady (T : I2C σ) (reg : Nat) (busy : Nat → Bool) (st : σ × List BusOp)
    (h : neverReady T reg busy st.1) : neverReady T.traced reg busy st := by
  intro n
  obtain ⟨b, hb, hbusy⟩ := h n
  refine ⟨b, ?_, hbusy⟩
  rw [traced_afterReads]
  exact hb

theorem traced_write (T : I2C σ) (v : Vl6180x) (reg : Nat) (value : List Nat)
    (st : σ × List BusOp) :
    (Vl6180x.Write T.traced v reg value st).2
      = ((Vl6180x.Write T v reg value st.1).2,
          st.2 ++ [BusOp.writeBytes (Vl6180x.bytesBuffer reg value)]) := by
  simp only [Vl6180x.Write, traced_WriteBytes]
  rcases T.WriteBytes (Vl6180x.bytesBuffer reg value) st.1 with ⟨r, s1⟩
  cases r <;> rfl

theorem write_state (T : I2C σ) (v : Vl6180x) (reg : Nat) (value : List Nat) (s : σ) :
    (Vl6180x.Write T v reg value s).2 = (T.WriteBytes (Vl6180x.bytesBuffer reg value) s).2 := by
  simp only [Vl6180x.Write]
  rcases T.WriteBytes (Vl6180x.bytesBuffer reg value) s with ⟨r, s1⟩
  cases r <;> rfl

theorem writesOf_append (xs ys : List BusOp) :
    writesOf (xs ++ ys) = writesOf xs ++ writesOf ys := by
  induction xs with
  | nil => rfl
  | cons x xs ih => cases x <;> simp [writesOf, ih]

theorem writesOf_replicate_read (n reg : Nat) :
    writesOf (List.replicate n (BusOp.readRegU8 reg)) = [] := by
  induction n with
  | zero => rfl
  | succ k ih => simpa [List.replicate_succ, writesOf] using ih

end Traced

/-! ## One range measurement -/

section Range

variable {σ : Type}

/-- The run of `ReadRange` on a transport on which both polls succeed and the
range value register delivers `b`. -/
theorem ReadRange_run (T : I2C σ) (v : Vl6180x) (s s3 : σ) (n1 n2 fuel b : Nat)
    (h1 : readyAfter T VL6180X_REG_RESULT_RANGE_STATUS (fun x => x &&& 0x01 == 0) n1 s = true)
    (h2 : readyAfter T VL6180X_REG_RESULT_INTERRUPT_STATUS_GPIO (fun x => x &&& 0x04 == 0) n2
      (rangeStarted T n1 s) = true)
    (h3 : T.ReadRegU8 VL6180X_REG_RESULT_RANGE_VAL (rangeReady T n1 n2 s) = (.ok b, s3))
    (hf1 : n1 < fuel) (hf2 : n2 < fuel) :
    Vl6180x.ReadRange T fuel v s
      = .ret b (T.WriteBytes (Vl6180x.bytesBuffer VL6180X_REG_SYSTEM_INTERRUPT_CLEAR [0x07]) s3).2 := by
  have e1 := forLoop_ready T v VL6180X_REG_RESULT_RANGE_STATUS (fun x => x &&& 0x01 == 0)
    n1 fuel s h1 hf1
  have e2 := forLoop_ready T v VL6180X_REG_RESULT_INTERRUPT_STATUS_GPIO (fun x => x &&& 0x04 == 0)
    n2 fuel (rangeStarted T n1 s) h2 hf2
  beta_reduce at e1 e2
  simp only [rangeReady] at h3
  simp only [rangeStarted] at e2 h3
  unfold Vl6180x.ReadRange
  rw [e1]
  simp only [bind_ret, Vl6180x.WriteByte, write_state]
  rw [e2]
  simp only [bind_ret, Vl6180x.ReadByte, h3]

theorem traced_rangeStarted (T : I2C σ) (n1 : Nat) (st : σ × List BusOp) :
    rangeStarted T.traced n1 st
      = (rangeStarted T n1 st.1,
          st.2 ++ List.replicate (n1 + 1) (BusOp.readRegU8 VL6180X_REG_RESULT_RANGE_STATUS)
            ++ [BusOp.writeBytes (Vl6180x.bytesBuffer VL6180X_REG_SYSRANGE_START [0x01])]) := by
  simp only [rangeStarted, traced_WriteBytes, traced_afterReads]

theorem traced_rangeReady (T : I2C σ) (n1 n2 : Nat) (st : σ × List BusOp) :
    rangeReady T.traced n1 n2 st
      = (rangeReady T n1 n2 st.1,
          st.2 ++ List.replicate (n1 + 1) (BusOp.readRegU8 VL6180X_REG_RESULT_RANGE_STATUS)
            ++ [BusOp.writeBytes (Vl6180x.bytesBuffer VL6180X_REG_SYSRANGE_START [0x01])]
            ++ List.replicate (n2 + 1) (BusOp.readRegU8 VL6180X_REG_RESULT_INTERRUPT_STATUS_GPIO)) := by
  simp only [rangeReady, traced_rangeStarted, traced_afterReads]

/-- The run of `ReadRange` behind the recorder, with the complete log of the
bus operations it makes. -/
theorem ReadRange_traced_run (T : I2C σ) (v : Vl6180x) (s s3 : σ) (tr : List BusOp)
    (n1 n2 fuel b : Nat)
    (h1 : readyAfter T VL6180X_REG_RESULT_RANGE_STATUS (fun x => x &&& 0x01 == 0) n1 s = true)
    (h2 : readyAfter T VL6180X_REG_RESULT_INTERRUPT_STATUS_GPIO (fun x => x &&& 0x04 == 0) n2
      (rangeStarted T n1 s) = true)
    (h3 : T.ReadRegU8 VL6180X_REG_RESULT_RANGE_VAL (rangeReady T n1 n2 s) = (.ok b, s3))
    (hf1 : n1 < fuel) (hf2 : n2 < fuel) :
    Vl6180x.ReadRange T.traced fuel v (s, tr)
      = .ret b ((T.WriteBytes (Vl6180x.bytesBuffer VL6180X_REG_SYSTEM_INTERRUPT_CLEAR [0x07]) s3).2,
          tr ++ (List.replicate (n1 + 1) (BusOp.readRegU8 VL6180X_REG_RESULT_RANGE_STATUS)
            ++ [BusOp.writeBytes (Vl6180x.bytesBuffer VL6180X_REG_SYSRANGE_START [0x01])]
            ++ List.replicate (n2 + 1) (BusOp.readRegU8 VL6180X_REG_RESULT_INTERRUPT_STATUS_GPIO)
            ++ [BusOp.readRegU8 VL6180X_REG_RESULT_RANGE_VAL,
                BusOp.writeBytes (Vl6180x.bytesBuffer VL6180X_REG_SYSTEM_INTERRUPT_CLEAR [0x07])])) := by
  have h1t : readyAfter T.traced VL6180X_REG_RESULT_RANGE_STATUS (fun x => x &&& 0x01 == 0) n1
      (s, tr) = true := by
    rw [traced_readyAfter]; exact h1
  have h2t : readyAfter T.traced VL6180X_REG_RESULT_INTERRUPT_STATUS_GPIO
      (fun x => x &&& 0x04 == 0) n2 (rangeStarted T.traced n1 (s, tr)) = true := by
    rw [traced_readyAfter, traced_rangeStarted]; exact h2
  have h3t : T.traced.ReadRegU8 VL6180X_REG_RESULT_RANGE_VAL (rangeReady T.traced n1 n2 (s, tr))
      = (.ok b, (s3,
          tr ++ List.replicate (n1 + 1) (BusOp.readRegU8 VL6180X_REG_RESULT_RANGE_STATUS)
            ++ [BusOp.writeBytes (Vl6180x.bytesBuffer VL6180X_REG_SYSRANGE_START [0x01])]
            ++ List.replicate (n2 + 1) (BusOp.readRegU8 VL6180X_REG_RESULT_INTERRUPT_STATUS_GPIO)
            ++ [BusOp.readRegU8 VL6180X_REG_RESULT_RANGE_VAL])) := by
    rw [traced_ReadRegU8, traced_rangeReady]
    simp only [h3]
  rw [ReadRange_run T.traced v (s, tr) _ n1 n2 fuel b h1t h2t h3t hf1 hf2, traced_WriteBytes]
  simp only [List.append_assoc, List.singleton_append, List.cons_append, List.nil_append]

end Range

/-! ## Claims about `ReadRange` -/

/-- C1: on every transport on which the poll of the range status register
succeeds (at read `n1 + 1`) and then the poll of the interrupt status register
succeeds (at read `n2 + 1`), `ReadRange` returns, given enough fuel, exactly
the byte `b` that the range value register 0x062 delivers when it is read:
no scaling is applied and the bytes seen while polling (the range status
nibble among them) play no part.  In particular a register holding 0x64 gives
100. -/
theorem C1_ReadRange_returns_raw_range_byte {σ : Type} (T : I2C σ) (v : Vl6180x) (s s3 : σ)
    (n1 n2 fuel b : Nat)
    (h1 : readyAfter T VL6180X_REG_RESULT_RANGE_STATUS (fun x => x &&& 0x01 == 0) n1 s = true)
    (h2 : readyAfter T VL6180X_REG_RESULT_INTERRUPT_STATUS_GPIO (fun x => x &&& 0x04 == 0) n2
      (rangeStarted T n1 s) = true)
    (h3 : T.ReadRegU8 VL6180X_REG_RESULT_RANGE_VAL (rangeReady T n1 n2 s) = (.ok b, s3))
    (hf1 : n1 < fuel) (hf2 : n2 < fuel) :
    Vl6180x.ReadRange T fuel v s
        = .ret b (T.WriteBytes (Vl6180x.bytesBuffer VL6180X_REG_SYSTEM_INTERRUPT_CLEAR [0x07]) s3).2
      ∧ (b = 0x64 → ∃ s4, Vl6180x.ReadRange T fuel v s = .ret 100 s4) := by
  have h := ReadRange_run T v s s3 n1 n2 fuel b h1 h2 h3 hf1 hf2
  refine ⟨h, fun hb => ?_⟩
  subst hb
  exact ⟨_, h⟩

/-- Witness for C1 on the scripted sensor: both polls need three reads, the
range value register holds 0x64, and `ReadRange` returns 100. -/
theorem C1_ReadRange_returns_raw_range_byte_witness :
    readyAfter simSensor VL6180X_REG_RESULT_RANGE_STATUS (fun x => x &&& 0x01 == 0) 2 0 = true
      ∧ readyAfter simSensor VL6180X_REG_RESULT_INTERRUPT_STATUS_GPIO (fun x => x &&& 0x04 == 0) 2
          (rangeStarted simSensor 2 0) = true
      ∧ simSensor.ReadRegU8 VL6180X_REG_RESULT_RANGE_VAL (rangeReady simSensor 2 2 0) = (.ok 0x64, 7)
      ∧ Vl6180x.ReadRange simSensor 3 ⟨0x29, 0⟩ 0 = .ret 100 7 :=
  ⟨by decide, by decide, by decide,
    (C1_ReadRange_returns_raw_range_byte simSensor ⟨0x29, 0⟩ 0 7 2 2 3 0x64
      (by decide) (by decide) (by decide) (by decide) (by decide)).1⟩

/-- C2: on every transport on which both polls of `ReadRange` succeed and the
range value register delivers a byte, the bus operations of `ReadRange` are,
in order: the reads of the range status register, the write of 0x01 to the
range-start register 0x018, the reads of the interrupt status register, the
read of the range value register 0x062, and the write of 0x07 to the
interrupt-clear register 0x015.  So exactly two writes are issued, start then
clear, and the clear write is the last operation, directly after the range
value read, whatever bytes were read. -/
theorem C2_ReadRange_writes_start_then_clear {σ : Type} (T : I2C σ) (v : Vl6180x) (s s3 : σ)
    (tr : List BusOp) (n1 n2 fuel b : Nat)
    (h1 : readyAfter T VL6180X_REG_RESULT_RANGE_STATUS (fun x => x &&& 0x01 == 0) n1 s = true)
    (h2 : readyAfter T VL6180X_REG_RESULT_INTERRUPT_STATUS_GPIO (fun x => x &&& 0x04 == 0) n2
      (rangeStarted T n1 s) = true)
    (h3 : T.ReadRegU8 VL6180X_REG_RESULT_RANGE_VAL (rangeReady T n1 n2 s) = (.ok b, s3))
    (hf1 : n1 < fuel) (hf2 : n2 < fuel) :
    ∃ s4 ops,
      Vl6180x.ReadRange T.traced fuel v (s, tr) = .ret b (s4, tr ++ ops)
      ∧ ops = List.replicate (n1 + 1) (BusOp.readRegU8 VL6180X_REG_RESULT_RANGE_STATUS)
          ++ [BusOp.writeBytes (Vl6180x.bytesBuffer VL6180X_REG_SYSRANGE_START [0x01])]
          ++ List.replicate (n2 + 1) (BusOp.readRegU8 VL6180X_REG_RESULT_INTERRUPT_STATUS_GPIO)
          ++ [BusOp.readRegU8 VL6180X_REG_RESULT_RANGE_VAL,
              BusOp.writeBytes (Vl6180x.bytesBuffer VL6180X_REG_SYSTEM_INTERRUPT_CLEAR [0x07])]
      ∧ writesOf ops = [Vl6180x.bytesBuffer VL6180X_REG_SYSRANGE_START [0x01],
          Vl6180x.bytesBuffer VL6180X_REG_SYSTEM_INTERRUPT_CLEAR [0x07]]
      ∧ ops.getLast?
          = some (BusOp.writeBytes (Vl6180x.bytesBuffer VL6180X_REG_SYSTEM_INTERRUPT_CLEAR [0x07])) := by
  refine ⟨_, _, ReadRange_traced_run T v s s3 tr n1 n2 fuel b h1 h2 h3 hf1 hf2, rfl, ?_, ?_⟩
  · simp [writesOf_append, writesOf_replicate_read, writesOf]
  · rw [List.getLast?_append]
    rfl

/-- Witness for C2 on the scripted sensor, started with an empty log. -/
theorem C2_ReadRange_writes_start_then_clear_witness :
    readyAfter simSensor VL6180X_REG_RESULT_RANGE_STATUS (fun x => x &&& 0x01 == 0) 2 0 = true
      ∧ readyAfter simSensor VL6180X_REG_RESULT_INTERRUPT_STATUS_GPIO (fun x => x &&& 0x04 == 0) 2
          (rangeStarted simSensor 2 0) = true
      ∧ simSensor.ReadRegU8 VL6180X_REG_RESULT_RANGE_VAL (rangeReady simSensor 2 2 0) = (.ok 0x64, 7)
      ∧ ∃ s4 ops,
          Vl6180x.ReadRange simSensor.traced 3 ⟨0x29, 0⟩ (0, []) = .ret 0x64 (s4, [] ++ ops)
          ∧ ops = List.replicate (2 + 1) (BusOp.readRegU8 VL6180X_REG_RESULT_RANGE_STATUS)
              ++ [BusOp.writeBytes (Vl6180x.bytesBuffer VL6180X_REG_SYSRANGE_START [0x01])]
              ++ List.replicate (2 + 1) (BusOp.readRegU8 VL6180X_REG_RESULT_INTERRUPT_STATUS_GPIO)
              ++ [BusOp.readRegU8 VL6180X_REG_RESULT_RANGE_VAL,
                  BusOp.writeBytes (Vl6180x.bytesBuffer VL6180X_REG_SYSTEM_INTERRUPT_CLEAR [0x07])]
          ∧ writesOf ops = [Vl6180x.bytesBuffer VL6180X_REG_SYSRANGE_START [0x01],
              Vl6180x.bytesBuffer VL6180X_REG_SYSTEM_INTERRUPT_CLEAR [0x07]]
          ∧ ops.getLast?
              = some (BusOp.writeBytes
                  (Vl6180x.bytesBuffer VL6180X_REG_SYSTEM_INTERRUPT_CLEAR [0x07])) :=
  ⟨by decide, by decide, by decide,
    C2_ReadRange_writes_start_then_clear simSensor ⟨0x29, 0⟩ 0 7 [] 2 2 3 0x64
      (by decide) (by decide) (by decide) (by decide) (by decide)⟩

/-! ## The configuration sequence -/

section Settings

variable {σ : Type}

/-- The body of `loadSettings` is the fold of `WriteByte` over `settings`. -/
theorem loadSettings_eq_foldl (T : I2C σ) (v : Vl6180x) (s : σ) :
    Vl6180x.loadSettings T v s
      = settings.foldl (fun s p => (Vl6180x.WriteByte T v p.1 p.2 s).2) s :=
  rfl

theorem traced_foldl_WriteByte (T : I2C σ) (v : Vl6180x) (l : List (Nat × Nat)) :
    ∀ st : σ × List BusOp,
      l.foldl (fun s p => (Vl6180x.WriteByte T.traced v p.1 p.2 s).2) st
        = (l.foldl (fun s p => (Vl6180x.WriteByte T v p.1 p.2 s).2) st.1,
            st.2 ++ l.map (fun p => BusOp.writeBytes (Vl6180x.bytesBuffer p.1 [p.2]))) := by
  induction l with
  | nil => intro st; simp
  | cons p l ih =>
    intro st
    rw [List.foldl_cons, ih, List.foldl_cons, List.map_cons]
    simp only [Vl6180x.WriteByte, traced_write, List.append_assoc, List.singleton_append]

/-- Behind the recorder `loadSettings` appends one write per entry of
`settings`, in order, whatever the transport answers. -/
theorem loadSettings_traced (T : I2C σ) (v : Vl6180x) (st : σ × List BusOp) :
    Vl6180x.loadSettings T.traced v st
      = (Vl6180x.loadSettings T v st.1,
          st.2 ++ settings.map (fun p => BusOp.writeBytes (Vl6180x.bytesBuffer p.1 [p.2]))) := by
  rw [loadSettings_eq_foldl, loadSettings_eq_foldl, traced_foldl_WriteByte]

/-- A transport error comes back from `Write` as its result. -/
theorem Write_error (T : I2C σ) (v : Vl6180x) (reg : Nat) (value : List Nat) (s s1 : σ)
    (err : Error) (h : T.WriteBytes (Vl6180x.bytesBuffer reg value) s = (.error err, s1)) :
    Vl6180x.Write T v reg value s = (some err, s1) := by
  simp only [Vl6180x.Write, h]

theorem writesOf_map_write {α : Type} (f : α → List Nat) (l : List α) :
    writesOf (l.map (fun p => BusOp.writeBytes (f p))) = l.map f := by
  induction l with
  | nil => rfl
  | cons p l ih => simp [writesOf, ih]

/-- On the register file one `WriteByte` is one register update. -/
theorem regFile_WriteByte (addrOf : Nat → Nat → Nat) (v : Vl6180x) (reg value : Nat)
    (regs : Nat → Nat) :
    (Vl6180x.WriteByte (regFile addrOf) v reg value regs).2
      = Function.update regs (addrOf (reg % 256) ((reg >>> 8) % 256)) value :=
  rfl

/-- After a list of register updates a register either holds a value fixed by
the list alone, or still holds what it held before. -/
theorem foldl_update_fixed_or_kept (key : Nat → Nat) (l : List (Nat × Nat)) (a : Nat) :
    (∃ c, ∀ regs : Nat → Nat,
        l.foldl (fun r p => Function.update r (key p.1) p.2) regs a = c)
      ∨ (∀ regs : Nat → Nat,
        l.foldl (fun r p => Function.update r (key p.1) p.2) regs a = regs a) := by
  induction l with
  | nil => exact Or.inr (fun regs => rfl)
  | cons p l ih =>
    rcases ih with ⟨c, hc⟩ | hkept
    · exact Or.inl ⟨c, fun regs => by rw [List.foldl_cons, hc]⟩
    · by_cases ha : a = key p.1
      · refine Or.inl ⟨p.2, fun regs => ?_⟩
        rw [List.foldl_cons, hkept, ha, Function.update_same]
      · refine Or.inr (fun regs => ?_)
        rw [List.foldl_cons, hkept, Function.update_noteq ha]

theorem foldl_update_twice (key : Nat → Nat) (l : List (Nat × Nat)) (regs : Nat → Nat) :
    l.foldl (fun r p => Function.update r (key p.1) p.2)
        (l.foldl (fun r p => Function.update r (key p.1) p.2) regs)
      = l.foldl (fun r p => Function.update r (key p.1) p.2) regs := by
  funext a
  rcases foldl_update_fixed_or_kept key l a with ⟨c, hc⟩ | hkept
  · rw [hc, hc]
  · rw [hkept]

theorem loadSettings_regFile (addrOf : Nat → Nat → Nat) (v : Vl6180x) (regs : Nat → Nat) :
    Vl6180x.loadSettings (regFile addrOf) v regs
      = settings.foldl (fun r p =>
          Function.update r ((fun reg => addrOf (reg % 256) ((reg >>> 8) % 256)) p.1) p.2) regs := by
  rw [loadSettings_eq_foldl]
  simp only [regFile_WriteByte]

end Settings

/-- C5: on the register file (every write succeeds, whichever byte order the
device uses to decode the address), running `loadSettings` twice leaves the
same registers as running it once, from every starting content; and on every
transport the buffers `loadSettings` hands over are the fixed list obtained
from `settings`, whatever the state and the answers of the transport. -/
theorem C5_loadSettings_idempotent :
    (∀ (addrOf : Nat → Nat → Nat) (v : Vl6180x) (regs : Nat → Nat),
      Vl6180x.loadSettings (regFile addrOf) v (Vl6180x.loadSettings (regFile addrOf) v regs)
        = Vl6180x.loadSettings (regFile addrOf) v regs)
    ∧ (∀ (σ : Type) (T : I2C σ) (v : Vl6180x) (s : σ),
      writesOf (Vl6180x.loadSettings T.traced v (s, [])).2
        = settings.map (fun p => Vl6180x.bytesBuffer p.1 [p.2])) := by
  refine ⟨fun addrOf v regs => ?_, fun σ T v s => ?_⟩
  · rw [loadSettings_regFile, loadSettings_regFile]
    exact foldl_update_twice (fun reg => addrOf (reg % 256) ((reg >>> 8) % 256)) settings regs
  · rw [loadSettings_traced]
    exact writesOf_map_write (fun p => Vl6180x.bytesBuffer p.1 [p.2]) settings

/-! ## Bringing the session up -/

/-- C3: when the bus opens and the model id register 0x000 delivers 0xB4,
`NewVl6180x` returns a session after exactly two bus operations (open, id
read), and `loadSettings` on that session then hands the whole configuration
sequence to the transport; when the register delivers any other value,
`NewVl6180x` returns nil after the same two operations, none of them a
write. -/
theorem C3_model_id_precondition {σ : Type} (T : I2C σ) (i2cAddr modelId : Nat) (s s1 s2 : σ)
    (hopen : T.NewI2C 0x29 0 s = (.ok (), s1))
    (hid : T.ReadRegU8 VL6180X_REG_IDENTIFICATION_MODEL_ID s1 = (.ok modelId, s2)) :
    (modelId = 0xB4 →
      NewVl6180x T.traced i2cAddr (s, [])
          = .ret (some ⟨i2cAddr, 0⟩)
              (s2, [BusOp.newI2C 0x29 0, BusOp.readRegU8 VL6180X_REG_IDENTIFICATION_MODEL_ID])
        ∧ writesOf (Vl6180x.loadSettings T.traced ⟨i2cAddr, 0⟩
              (s2, [BusOp.newI2C 0x29 0, BusOp.readRegU8 VL6180X_REG_IDENTIFICATION_MODEL_ID])).2
            = settings.map (fun p => Vl6180x.bytesBuffer p.1 [p.2]))
    ∧ (modelId ≠ 0xB4 →
      NewVl6180x T.traced i2cAddr (s, [])
          = .ret none
              (s2, [BusOp.newI2C 0x29 0, BusOp.readRegU8 VL6180X_REG_IDENTIFICATION_MODEL_ID])
        ∧ writesOf [BusOp.newI2C 0x29 0, BusOp.readRegU8 VL6180X_REG_IDENTIFICATION_MODEL_ID]
            = []) := by
  have hrun : NewVl6180x T.traced i2cAddr (s, [])
      = if modelId != 0xB4 then
          .ret none (s2, [BusOp.newI2C 0x29 0,
            BusOp.readRegU8 VL6180X_REG_IDENTIFICATION_MODEL_ID])
        else
          .ret (some ⟨i2cAddr, 0⟩) (s2, [BusOp.newI2C 0x29 0,
            BusOp.readRegU8 VL6180X_REG_IDENTIFICATION_MODEL_ID]) := by
    simp only [NewVl6180x, traced_NewI2C, traced_ReadRegU8, hopen, hid, List.nil_append,
      List.cons_append]
  refine ⟨fun h => ⟨?_, ?_⟩, fun h => ⟨?_, rfl⟩⟩
  · rw [hrun, h]; rfl
  · rw [loadSettings_traced, writesOf_append]
    exact writesOf_map_write (fun p => Vl6180x.bytesBuffer p.1 [p.2]) settings
  · rw [hrun]; simp [h]

/-- Witness for C3: the scripted sensor answers 0xB4 and a session comes
back; the wedged sensor answers 0x00 and nil comes back without any write. -/
theorem C3_model_id_precondition_witness :
    (simSensor.NewI2C 0x29 0 0 = (.ok (), 0)
      ∧ simSensor.ReadRegU8 VL6180X_REG_IDENTIFICATION_MODEL_ID 0 = (.ok 0xB4, 1)
      ∧ NewVl6180x simSensor.traced 0x29 (0, [])
          = .ret (some ⟨0x29, 0⟩)
              (1, [BusOp.newI2C 0x29 0, BusOp.readRegU8 VL6180X_REG_IDENTIFICATION_MODEL_ID]))
    ∧ (stuckSensor.NewI2C 0x29 0 () = (.ok (), ())
      ∧ stuckSensor.ReadRegU8 VL6180X_REG_IDENTIFICATION_MODEL_ID () = (.ok 0x00, ())
      ∧ NewVl6180x stuckSensor.traced 0x29 ((), [])
          = .ret none
              ((), [BusOp.newI2C 0x29 0, BusOp.readRegU8 VL6180X_REG_IDENTIFICATION_MODEL_ID])) :=
  ⟨⟨rfl, rfl, ((C3_model_id_precondition simSensor 0x29 0xB4 0 0 1 rfl rfl).1 rfl).1⟩,
    ⟨rfl, rfl, ((C3_model_id_precondition stuckSensor 0x29 0x00 () () () rfl rfl).2
      (by decide)).1⟩⟩

/-! ## The write buffer -/

/-- C6: what the code does.  `Vl6180x.Write` hands over the register address
low byte first, then high byte, then the data unchanged (length
`2 + len(data)`).  For register 0x0207 and data 0x01, the first write of
`loadSettings`, the buffer is 07 02 01, while the repository's own
`uint16LE` orders the address 02 07; a device that takes the high byte first
stores the value at 0x0702 and leaves 0x0207 untouched. -/
theorem C6_Write_sends_low_address_byte_first :
    (∀ (σ : Type) (T : I2C σ) (v : Vl6180x) (reg : Nat) (value : List Nat) (s : σ),
      (Vl6180x.Write T.traced v reg value (s, [])).2.2
          = [BusOp.writeBytes ([reg % 256, (reg >>> 8) % 256] ++ value)]
        ∧ ([reg % 256, (reg >>> 8) % 256] ++ value).length = 2 + value.length)
    ∧ (Vl6180x.WriteByte stuckSensor.traced ⟨0x29, 0⟩ 0x0207 0x01 ((), [])).2.2
        = [BusOp.writeBytes [0x07, 0x02, 0x01]]
    ∧ uint16LE 0x0207 ++ [0x01] = [0x02, 0x07, 0x01]
    ∧ (Vl6180x.WriteByte (regFile highByteFirst) ⟨0x29, 0⟩ 0x0207 0x01 (fun _ => 0)).2 0x0207 = 0
    ∧ (Vl6180x.WriteByte (regFile highByteFirst) ⟨0x29, 0⟩ 0x0207 0x01 (fun _ => 0)).2 0x0702 = 1 := by
  refine ⟨fun σ T v reg value s => ⟨?_, ?_⟩, rfl, rfl, ?_, ?_⟩
  · rw [traced_write]; rfl
  · simp; omega
  · rw [regFile_WriteByte]; decide
  · rw [regFile_WriteByte]; decide

/-! ## Failing writes during configuration -/

set_option maxRecDepth 8192 in
/-- C7 (counterexample): on the bus whose third write fails, the third
`WriteByte` of the sequence gets the error back, and `loadSettings` still
hands all thirty-nine buffers to the transport, the thirty-six after the
failed one included. -/
theorem C7_counterexample_failed_write_does_not_abort :
    (Vl6180x.WriteByte flakyBus ⟨0x29, 0⟩ 0x0096 0x00
        ((settings.take 2).foldl (fun s p => (Vl6180x.WriteByte flakyBus ⟨0x29, 0⟩ p.1 p.2 s).2) 0)).1
      = some (Error.errno 5)
    ∧ settings[2]? = some (0x0096, 0x00)
    ∧ writesOf (Vl6180x.loadSettings flakyBus.traced ⟨0x29, 0⟩ (0, [])).2
        = settings.map (fun p => Vl6180x.bytesBuffer p.1 [p.2])
    ∧ (writesOf (Vl6180x.loadSettings flakyBus.traced ⟨0x29, 0⟩ (0, [])).2).length = 39
    ∧ Vl6180x.loadSettings flakyBus ⟨0x29, 0⟩ 0 = 39 := by
  have hw : writesOf (Vl6180x.loadSettings flakyBus.traced ⟨0x29, 0⟩ (0, [])).2
      = settings.map (fun p => Vl6180x.bytesBuffer p.1 [p.2]) := by
    rw [loadSettings_traced]
    exact writesOf_map_write (fun p => Vl6180x.bytesBuffer p.1 [p.2]) settings
  refine ⟨rfl, rfl, hw, ?_, rfl⟩
  rw [hw]; rfl

/-- C7 (amended): if the write of entry `k` of the configuration sequence
fails with a transport error, `Vl6180x.WriteByte` returns that error to
`loadSettings`, which drops it and goes on: the log holds the buffers of all
entries of `settings` in order, and in particular the entries after `k`. -/
theorem C7_loadSettings_goes_on_after_failed_write {σ : Type} (T : I2C σ) (v : Vl6180x)
    (s s1 : σ) (k : Nat) (err : Error) (hk : k < settings.length)
    (hfail : T.WriteBytes (Vl6180x.bytesBuffer settings[k].1 [settings[k].2])
        ((settings.take k).foldl (fun s q => (Vl6180x.WriteByte T v q.1 q.2 s).2) s)
      = (.error err, s1)) :
    Vl6180x.WriteByte T v settings[k].1 settings[k].2
        ((settings.take k).foldl (fun s q => (Vl6180x.WriteByte T v q.1 q.2 s).2) s)
      = (some err, s1)
    ∧ writesOf (Vl6180x.loadSettings T.traced v (s, [])).2
        = settings.map (fun q => Vl6180x.bytesBuffer q.1 [q.2])
    ∧ (writesOf (Vl6180x.loadSettings T.traced v (s, [])).2).drop (k + 1)
        = (settings.drop (k + 1)).map (fun q => Vl6180x.bytesBuffer q.1 [q.2]) := by
  have hw : writesOf (Vl6180x.loadSettings T.traced v (s, [])).2
      = settings.map (fun q => Vl6180x.bytesBuffer q.1 [q.2]) := by
    rw [loadSettings_traced]
    exact writesOf_map_write (fun q => Vl6180x.bytesBuffer q.1 [q.2]) settings
  refine ⟨?_, hw, ?_⟩
  · exact Write_error T v settings[k].1 [settings[k].2] _ s1 err hfail
  · rw [hw, List.map_drop]

set_option maxRecDepth 8192 in
/-- Witness for C7 (amended) on the bus whose third write fails: entry 2 of
the sequence is (0x0096, 0x00), its write fails, and the thirty-six later
buffers are in the log. -/
theorem C7_loadSettings_goes_on_after_failed_write_witness :
    (2 < settings.length ∧ settings[2]? = some (0x0096, 0x00))
    ∧ flakyBus.WriteBytes (Vl6180x.bytesBuffer 0x0096 [0x00])
        ((settings.take 2).foldl (fun s q => (Vl6180x.WriteByte flakyBus ⟨0x29, 0⟩ q.1 q.2 s).2) 0)
      = (.error (Error.errno 5), 3)
    ∧ (writesOf (Vl6180x.loadSettings flakyBus.traced ⟨0x29, 0⟩ (0, [])).2).drop (2 + 1)
        = (settings.drop (2 + 1)).map (fun q => Vl6180x.bytesBuffer q.1 [q.2]) :=
  ⟨⟨by decide, rfl⟩, rfl,
    (C7_loadSettings_goes_on_after_failed_write flakyBus ⟨0x29, 0⟩ 0 3 2
      (Error.errno 5) (by decide) rfl).2.2⟩

/-! ## A sensor that never gets ready -/

/-- C8 (counterexample): on the wedged sensor, with a 50 ms `ioTimeout` set,
no amount of fuel makes `ReadRange` stop: it neither returns nor fails, it is
still polling. -/
theorem C8_counterexample_ReadRange_never_stops :
    ¬ ∃ fuel : Nat,
      Vl6180x.ReadRange stuckSensor fuel ((⟨0x29, 0⟩ : Vl6180x).setTimeout 50000000) ()
        ≠ .polling () := by
  rintro ⟨fuel, h⟩
  apply h
  unfold Vl6180x.ReadRange
  rw [forLoop_never stuckSensor _ VL6180X_REG_RESULT_RANGE_STATUS (fun x => x &&& 0x01 == 0)
    fuel () (fun _ => ⟨0, rfl, rfl⟩)]
  rfl

/-- C8 (amended): on a transport whose readiness bit (bit 0 of register
0x04D) never becomes set, `ReadRange` is still polling whatever the fuel and
whatever `ioTimeout` was set: its bus operations are reads of 0x04D only, one
per unit of fuel, and no write (so no range-start trigger) is issued. -/
theorem C8_ReadRange_polls_without_bound {σ : Type} (T : I2C σ) (v : Vl6180x) (s : σ)
    (tr : List BusOp) (fuel : Nat) (timeout : Int)
    (h : neverReady T VL6180X_REG_RESULT_RANGE_STATUS (fun x => x &&& 0x01 == 0) s) :
    Vl6180x.ReadRange T.traced fuel (v.setTimeout timeout) (s, tr)
        = .polling (afterReads T VL6180X_REG_RESULT_RANGE_STATUS fuel s,
            tr ++ List.replicate fuel (BusOp.readRegU8 VL6180X_REG_RESULT_RANGE_STATUS))
      ∧ writesOf (tr ++ List.replicate fuel (BusOp.readRegU8 VL6180X_REG_RESULT_RANGE_STATUS))
          = writesOf tr := by
  constructor
  · unfold Vl6180x.ReadRange
    rw [forLoop_never T.traced _ VL6180X_REG_RESULT_RANGE_STATUS (fun x => x &&& 0x01 == 0)
      fuel (s, tr) (traced_neverReady T _ _ (s, tr) h), traced_afterReads]
    rfl
  · rw [writesOf_append, writesOf_replicate_read, List.append_nil]

/-- Witness for C8 (amended): the wedged sensor, five units of fuel, a 50 ms
timeout. -/
theorem C8_ReadRange_polls_without_bound_witness :
    neverReady stuckSensor VL6180X_REG_RESULT_RANGE_STATUS (fun x => x &&& 0x01 == 0) ()
      ∧ Vl6180x.ReadRange stuckSensor.traced 5 ((⟨0x29, 0⟩ : Vl6180x).setTimeout 50000000) ((), [])
          = .polling ((), List.replicate 5 (BusOp.readRegU8 VL6180X_REG_RESULT_RANGE_STATUS)) :=
  ⟨fun _ => ⟨0, rfl, rfl⟩,
    (C8_ReadRange_polls_without_bound stuckSensor ⟨0x29, 0⟩ () [] 5 50000000
      (fun _ => ⟨0, rfl, rfl⟩)).1⟩

/-! ## The range status nibble -/

set_option maxRecDepth 100000 in
theorem nibble_bound : ∀ b < 256, b >>> 4 < 16 ∧ b >>> 4 = b / 16 := by
  decide

set_option maxRecDepth 100000 in
theorem nibble_zero_iff : ∀ b < 256, (b >>> 4 = 0 ↔ b &&& 0xF0 = 0) := by
  decide

set_option maxRecDepth 100000 in
theorem nibble_ignores_low : ∀ b < 256, ∀ low < 16, ((b &&& 0xF0) ||| low) >>> 4 = b >>> 4 := by
  decide

/-- C9: for every byte `b` delivered by the range status register 0x04D,
`ReadRangeStatus` returns `b >> 4`: a value below 16, the same whatever the
low nibble of `b` is (ready bit included), and equal to `VL6180X_ERROR_NONE`
exactly when the upper nibble of `b` is zero. -/
theorem C9_ReadRangeStatus_is_upper_nibble {σ : Type} (T : I2C σ) (v : Vl6180x) (s s1 : σ)
    (b : Nat) (hb : b < 256)
    (hread : T.ReadRegU8 VL6180X_REG_RESULT_RANGE_STATUS s = (.ok b, s1)) :
    Vl6180x.ReadRangeStatus T v s = .ret (b >>> 4) s1
      ∧ b >>> 4 = b / 16
      ∧ b >>> 4 < 16
      ∧ (∀ low, low < 16 → ((b &&& 0xF0) ||| low) >>> 4 = b >>> 4)
      ∧ (b >>> 4 = VL6180X_ERROR_NONE ↔ b &&& 0xF0 = 0) := by
  refine ⟨?_, (nibble_bound b hb).2, (nibble_bound b hb).1, nibble_ignores_low b hb,
    nibble_zero_iff b hb⟩
  simp only [Vl6180x.ReadRangeStatus, Vl6180x.ReadByte, hread, bind_ret]

/-- Witness for C9: the register holds 0x61 (status 6, ready bit set) and
the status returned is 6. -/
theorem C9_ReadRangeStatus_is_upper_nibble_witness :
    0x61 < 256
      ∧ (regFile highByteFirst).ReadRegU8 VL6180X_REG_RESULT_RANGE_STATUS (oneReg 0x4d 0x61)
          = (.ok 0x61, oneReg 0x4d 0x61)
      ∧ Vl6180x.ReadRangeStatus (regFile highByteFirst) ⟨0x29, 0⟩ (oneReg 0x4d 0x61)
          = .ret 6 (oneReg 0x4d 0x61) :=
  ⟨by decide, rfl,
    (C9_ReadRangeStatus_is_upper_nibble (regFile highByteFirst) ⟨0x29, 0⟩ (oneReg 0x4d 0x61)
      (oneReg 0x4d 0x61) 0x61 (by decide) rfl).1⟩

/-! ## One ambient light measurement -/

section Lux

variable {σ : Type}

theorem ReadByte_ok (T : I2C σ) (v : Vl6180x) (reg b : Nat) (s s1 : σ)
    (h : T.ReadRegU8 reg s = (.ok b, s1)) : Vl6180x.ReadByte T v reg s = .ret b s1 := by
  simp only [Vl6180x.ReadByte, h]

theorem ReadByte_error (T : I2C σ) (v : Vl6180x) (reg : Nat) (e : Error) (s s1 : σ)
    (h : T.ReadRegU8 reg s = (.error e, s1)) : Vl6180x.ReadByte T v reg s = .fatal s1 := by
  simp only [Vl6180x.ReadByte, h]

/-- Whatever way a poll ends, all it has added to the log is reads of the
polled register, at most one per unit of fuel. -/
theorem forLoop_traced_log (T : I2C σ) (v : Vl6180x) (reg : Nat) (busy : Nat → Bool) :
    ∀ (fuel : Nat) (st : σ × List BusOp), ∃ k, k ≤ fuel ∧
      (forLoop (fun s => (Vl6180x.ReadByte T.traced v reg s).bind fun b s1 => .ret (busy b) s1)
          fuel st).state.2
        = st.2 ++ List.replicate k (BusOp.readRegU8 reg) := by
  intro fuel
  induction fuel with
  | zero => intro st; exact ⟨0, le_refl 0, by simp [forLoop, Outcome.state]⟩
  | succ f ih =>
    intro st
    rcases hr : T.ReadRegU8 reg st.1 with ⟨r, s1⟩
    cases r with
    | error e =>
      refine ⟨1, by omega, ?_⟩
      simp [forLoop, Vl6180x.ReadByte, traced_ReadRegU8, hr, Outcome.bind, Outcome.state]
    | ok b =>
      cases hb : busy b with
      | false =>
        refine ⟨1, by omega, ?_⟩
        simp [forLoop, Vl6180x.ReadByte, traced_ReadRegU8, hr, Outcome.bind, Outcome.state, hb]
      | true =>
        obtain ⟨k, hk, hlog⟩ := ih (s1, st.2 ++ [BusOp.readRegU8 reg])
        refine ⟨k + 1, by omega, ?_⟩
        have hstep : forLoop
            (fun s => (Vl6180x.ReadByte T.traced v reg s).bind fun b s1 => .ret (busy b) s1)
            (f + 1) st
            = forLoop
                (fun s => (Vl6180x.ReadByte T.traced v reg s).bind fun b s1 => .ret (busy b) s1)
                f (s1, st.2 ++ [BusOp.readRegU8 reg]) := by
          simp only [forLoop, Vl6180x.ReadByte, traced_ReadRegU8, hr, Outcome.bind, hb]
        rw [hstep, hlog]
        simp [List.replicate_succ]

/-- The five configuration writes of `ReadLux`, after a configuration read
that delivered `c`. -/
theorem ReadLux_traced_start (T : I2C σ) (fuel : Nat) (v : Vl6180x) (gain c : Nat) (s s1 : σ)
    (tr : List BusOp)
    (h : T.ReadRegU8 VL6180X_REG_SYSTEM_INTERRUPT_CONFIG s = (.ok c, s1)) :
    ∃ s5, Vl6180x.ReadLux T.traced fuel v gain (s, tr)
      = forLoop (fun s => (Vl6180x.ReadByte T.traced v VL6180X_REG_RESULT_INTERRUPT_STATUS_GPIO s).bind
          fun b s1 => .ret (((b >>> 3) &&& 0x07) != 4) s1) fuel
        (s5, tr ++ [BusOp.readRegU8 VL6180X_REG_SYSTEM_INTERRUPT_CONFIG,
          BusOp.writeBytes (Vl6180x.bytesBuffer VL6180X_REG_SYSTEM_INTERRUPT_CONFIG
            [(c &&& 0xC7) ||| 0x20]),
          BusOp.writeBytes (Vl6180x.bytesBuffer VL6180X_REG_SYSALS_INTEGRATION_PERIOD_HI [0]),
          BusOp.writeBytes (Vl6180x.bytesBuffer VL6180X_REG_SYSALS_INTEGRATION_PERIOD_LO [100]),
          BusOp.writeBytes (Vl6180x.bytesBuffer VL6180X_REG_SYSALS_ANALOGUE_GAIN
            [0x40 ||| min gain 7]),
          BusOp.writeBytes (Vl6180x.bytesBuffer VL6180X_REG_SYSALS_START [0x01])]) := by
  have hread : Vl6180x.ReadByte T.traced v VL6180X_REG_SYSTEM_INTERRUPT_CONFIG (s, tr)
      = .ret c (s1, tr ++ [BusOp.readRegU8 VL6180X_REG_SYSTEM_INTERRUPT_CONFIG]) := by
    apply ReadByte_ok
    rw [traced_ReadRegU8, h]
  have hgain : (if gain > VL6180X_ALS_GAIN_40 then VL6180X_ALS_GAIN_40 else gain) = min gain 7 := by
    unfold VL6180X_ALS_GAIN_40
    split <;> omega
  have hmask : (0xFF ^^^ 0x38 : Nat) = 0xC7 := by decide
  have hirq : (0x04 <<< 3 : Nat) = 0x20 := by decide
  refine ⟨(Vl6180x.Write T v VL6180X_REG_SYSALS_START [0x01]
    (Vl6180x.Write T v VL6180X_REG_SYSALS_ANALOGUE_GAIN [0x40 ||| min gain 7]
      (Vl6180x.Write T v VL6180X_REG_SYSALS_INTEGRATION_PERIOD_LO [100]
        (Vl6180x.Write T v VL6180X_REG_SYSALS_INTEGRATION_PERIOD_HI [0]
          (Vl6180x.Write T v VL6180X_REG_SYSTEM_INTERRUPT_CONFIG [(c &&& 0xC7) ||| 0x20]
            s1).2).2).2).2).2, ?_⟩
  unfold Vl6180x.ReadLux
  rw [hread, bind_ret]
  simp only [hgain, hmask, hirq, Vl6180x.WriteByte, traced_write, List.append_assoc,
    List.singleton_append, List.cons_append, List.nil_append]

/-- The log of `ReadLux` after a configuration read that delivered `c`:
the read, the five writes, then reads of the interrupt status register. -/
theorem ReadLux_traced_log (T : I2C σ) (fuel : Nat) (v : Vl6180x) (gain c : Nat) (s s1 : σ)
    (tr : List BusOp)
    (h : T.ReadRegU8 VL6180X_REG_SYSTEM_INTERRUPT_CONFIG s = (.ok c, s1)) :
    ∃ k, k ≤ fuel ∧ (Vl6180x.ReadLux T.traced fuel v gain (s, tr)).state.2
      = tr ++ ([BusOp.readRegU8 VL6180X_REG_SYSTEM_INTERRUPT_CONFIG,
          BusOp.writeBytes (Vl6180x.bytesBuffer VL6180X_REG_SYSTEM_INTERRUPT_CONFIG
            [(c &&& 0xC7) ||| 0x20]),
          BusOp.writeBytes (Vl6180x.bytesBuffer VL6180X_REG_SYSALS_INTEGRATION_PERIOD_HI [0]),
          BusOp.writeBytes (Vl6180x.bytesBuffer VL6180X_REG_SYSALS_INTEGRATION_PERIOD_LO [100]),
          BusOp.writeBytes (Vl6180x.bytesBuffer VL6180X_REG_SYSALS_ANALOGUE_GAIN
            [0x40 ||| min gain 7]),
          BusOp.writeBytes (Vl6180x.bytesBuffer VL6180X_REG_SYSALS_START [0x01])]
        ++ List.replicate k (BusOp.readRegU8 VL6180X_REG_RESULT_INTERRUPT_STATUS_GPIO)) := by
  obtain ⟨s5, hrun⟩ := ReadLux_traced_start T fuel v gain c s s1 tr h
  obtain ⟨k, hk, hlog⟩ := forLoop_traced_log T v VL6180X_REG_RESULT_INTERRUPT_STATUS_GPIO
    (fun b => ((b >>> 3) &&& 0x07) != 4) fuel
    (s5, tr ++ [BusOp.readRegU8 VL6180X_REG_SYSTEM_INTERRUPT_CONFIG,
      BusOp.writeBytes (Vl6180x.bytesBuffer VL6180X_REG_SYSTEM_INTERRUPT_CONFIG
        [(c &&& 0xC7) ||| 0x20]),
      BusOp.writeBytes (Vl6180x.bytesBuffer VL6180X_REG_SYSALS_INTEGRATION_PERIOD_HI [0]),
      BusOp.writeBytes (Vl6180x.bytesBuffer VL6180X_REG_SYSALS_INTEGRATION_PERIOD_LO [100]),
      BusOp.writeBytes (Vl6180x.bytesBuffer VL6180X_REG_SYSALS_ANALOGUE_GAIN
        [0x40 ||| min gain 7]),
      BusOp.writeBytes (Vl6180x.bytesBuffer VL6180X_REG_SYSALS_START [0x01])])
  refine ⟨k, hk, ?_⟩
  rw [hrun, hlog, List.append_assoc]

/-- When the configuration read fails, `ReadLux` ends in `log.Fatal` with
that read as its only bus operation. -/
theorem ReadLux_traced_fatal (T : I2C σ) (fuel : Nat) (v : Vl6180x) (gain : Nat) (e : Error)
    (s s1 : σ) (tr : List BusOp)
    (h : T.ReadRegU8 VL6180X_REG_SYSTEM_INTERRUPT_CONFIG s = (.error e, s1)) :
    Vl6180x.ReadLux T.traced fuel v gain (s, tr)
      = .fatal (s1, tr ++ [BusOp.readRegU8 VL6180X_REG_SYSTEM_INTERRUPT_CONFIG]) := by
  have hread : Vl6180x.ReadByte T.traced v VL6180X_REG_SYSTEM_INTERRUPT_CONFIG (s, tr)
      = .fatal (s1, tr ++ [BusOp.readRegU8 VL6180X_REG_SYSTEM_INTERRUPT_CONFIG]) := by
    apply ReadByte_error (e := e)
    rw [traced_ReadRegU8, h]
  unfold Vl6180x.ReadLux
  rw [hread]
  rfl

end Lux

/-! ## Claims about `ReadLux` -/

set_option maxRecDepth 100000 in
theorem irq_bits : ∀ c < 256,
    (((c &&& 0xC7) ||| 0x20) >>> 3) &&& 0x07 = 4
      ∧ ((c &&& 0xC7) ||| 0x20) &&& 0xC7 = c &&& 0xC7
      ∧ (c &&& 0xC7) ||| 0x20 < 256 := by
  decide

theorem gain_bits : ∀ m ≤ 7, (0x40 ||| m) >>> 4 = 0x4 ∧ (0x40 ||| m) &&& 0x0F = m := by
  decide

/-- C4: whatever the gain argument, any write `ReadLux` makes to the analogue
gain register 0x03F carries the byte `0x40 | min(gain, 7)`, and that write is
made whenever the configuration read succeeds.  The high nibble of the byte
is 0x4 and the low nibble is `min(gain, 7)`, at most 0x07: 0x47 for gain
0x09, and the gain itself for gain up to 7. -/
theorem C4_ReadLux_clamps_gain {σ : Type} (T : I2C σ) (fuel : Nat) (v : Vl6180x) (gain : Nat)
    (s : σ) :
    (∀ x, Vl6180x.bytesBuffer VL6180X_REG_SYSALS_ANALOGUE_GAIN [x]
          ∈ writesOf (Vl6180x.ReadLux T.traced fuel v gain (s, [])).state.2 →
        x = 0x40 ||| min gain 7)
    ∧ (∀ c s1, T.ReadRegU8 VL6180X_REG_SYSTEM_INTERRUPT_CONFIG s = (.ok c, s1) →
        Vl6180x.bytesBuffer VL6180X_REG_SYSALS_ANALOGUE_GAIN [0x40 ||| min gain 7]
          ∈ writesOf (Vl6180x.ReadLux T.traced fuel v gain (s, [])).state.2)
    ∧ (0x40 ||| min gain 7) >>> 4 = 0x4
    ∧ (0x40 ||| min gain 7) &&& 0x0F = min gain 7
    ∧ (0x40 ||| min gain 7) &&& 0x0F ≤ 0x07
    ∧ (gain = 0x09 → 0x40 ||| min gain 7 = 0x47)
    ∧ (gain ≤ 7 → (0x40 ||| min gain 7) &&& 0x0F = gain) := by
  have hm : min gain 7 ≤ 7 := Nat.min_le_right gain 7
  have hbits := gain_bits (min gain 7) hm
  have hlog : ∀ c s1, T.ReadRegU8 VL6180X_REG_SYSTEM_INTERRUPT_CONFIG s = (.ok c, s1) →
      writesOf (Vl6180x.ReadLux T.traced fuel v gain (s, [])).state.2
        = [Vl6180x.bytesBuffer VL6180X_REG_SYSTEM_INTERRUPT_CONFIG [(c &&& 0xC7) ||| 0x20],
           Vl6180x.bytesBuffer VL6180X_REG_SYSALS_INTEGRATION_PERIOD_HI [0],
           Vl6180x.bytesBuffer VL6180X_REG_SYSALS_INTEGRATION_PERIOD_LO [100],
           Vl6180x.bytesBuffer VL6180X_REG_SYSALS_ANALOGUE_GAIN [0x40 ||| min gain 7],
           Vl6180x.bytesBuffer VL6180X_REG_SYSALS_START [0x01]] := by
    intro c s1 h
    obtain ⟨k, _, hk⟩ := ReadLux_traced_log T fuel v gain c s s1 [] h
    rw [hk]
    simp [writesOf_append, writesOf_replicate_read, writesOf]
  refine ⟨fun x hx => ?_, fun c s1 h => ?_, hbits.1, hbits.2, ?_, fun hg => ?_, fun hg => ?_⟩
  · rcases hr : T.ReadRegU8 VL6180X_REG_SYSTEM_INTERRUPT_CONFIG s with ⟨r, s1⟩
    cases r with
    | ok c =>
      rw [hlog c s1 hr] at hx
      simpa [Vl6180x.bytesBuffer, putUint16LittleEndian, VL6180X_REG_SYSALS_ANALOGUE_GAIN,
        VL6180X_REG_SYSTEM_INTERRUPT_CONFIG, VL6180X_REG_SYSALS_INTEGRATION_PERIOD_HI,
        VL6180X_REG_SYSALS_INTEGRATION_PERIOD_LO, VL6180X_REG_SYSALS_START] using hx
    | error e =>
      rw [ReadLux_traced_fatal T fuel v gain e s s1 [] hr] at hx
      simp [Outcome.state, writesOf] at hx
  · rw [hlog c s1 h]
    simp
  · rw [hbits.2]; exact hm
  · subst hg; decide
  · rw [hbits.2]; exact Nat.min_eq_left hg

/-- C10: when the interrupt configuration register 0x014 delivers the byte
`c`, the bus operations of `ReadLux` are, in order: that read; the write of
`(c & ~0x38) | 0x20` to 0x014; the writes 0x040 := 0 and 0x041 := 100; the
gain write to 0x03F; the write 0x038 := 0x01; and after that only reads of
the interrupt status register.  In the byte written first, bits 5:3 are 4 and
bits 7:6 and 2:0 are those of `c`. -/
theorem C10_ReadLux_configures_then_triggers {σ : Type} (T : I2C σ) (fuel : Nat) (v : Vl6180x)
    (gain c : Nat) (s s1 : σ) (tr : List BusOp) (hc : c < 256)
    (hread : T.ReadRegU8 VL6180X_REG_SYSTEM_INTERRUPT_CONFIG s = (.ok c, s1)) :
    (∃ k, k ≤ fuel ∧ (Vl6180x.ReadLux T.traced fuel v gain (s, tr)).state.2
      = tr ++ ([BusOp.readRegU8 VL6180X_REG_SYSTEM_INTERRUPT_CONFIG,
          BusOp.writeBytes (Vl6180x.bytesBuffer VL6180X_REG_SYSTEM_INTERRUPT_CONFIG
            [(c &&& 0xC7) ||| 0x20]),
          BusOp.writeBytes (Vl6180x.bytesBuffer VL6180X_REG_SYSALS_INTEGRATION_PERIOD_HI [0]),
          BusOp.writeBytes (Vl6180x.bytesBuffer VL6180X_REG_SYSALS_INTEGRATION_PERIOD_LO [100]),
          BusOp.writeBytes (Vl6180x.bytesBuffer VL6180X_REG_SYSALS_ANALOGUE_GAIN
            [0x40 ||| min gain 7]),
          BusOp.writeBytes (Vl6180x.bytesBuffer VL6180X_REG_SYSALS_START [0x01])]
        ++ List.replicate k (BusOp.readRegU8 VL6180X_REG_RESULT_INTERRUPT_STATUS_GPIO)))
    ∧ c &&& (0xFF ^^^ 0x38) = c &&& 0xC7
    ∧ (((c &&& 0xC7) ||| 0x20) >>> 3) &&& 0x07 = 4
    ∧ ((c &&& 0xC7) ||| 0x20) &&& 0xC7 = c &&& 0xC7
    ∧ (c &&& 0xC7) ||| 0x20 < 256 :=
  ⟨ReadLux_traced_log T fuel v gain c s s1 tr hread, rfl, irq_bits c hc⟩

/-- Witness for C10: the register file holds 0xFF in 0x014; the byte written
back is 0xE7, and with two units of fuel the log is the read, the five
writes and two status reads. -/
theorem C10_ReadLux_configures_then_triggers_witness :
    (0xFF < 256
      ∧ (regFile highByteFirst).ReadRegU8 VL6180X_REG_SYSTEM_INTERRUPT_CONFIG (oneReg 0x14 0xFF)
          = (.ok 0xFF, oneReg 0x14 0xFF))
    ∧ (Vl6180x.ReadLux (regFile highByteFirst).traced 2 ⟨0x29, 0⟩ 0x09 (oneReg 0x14 0xFF, [])).state.2
        = [BusOp.readRegU8 0x14, BusOp.writeBytes [0x14, 0x00, 0xE7],
           BusOp.writeBytes [0x40, 0x00, 0], BusOp.writeBytes [0x41, 0x00, 100],
           BusOp.writeBytes [0x3F, 0x00, 0x47], BusOp.writeBytes [0x38, 0x00, 0x01],
           BusOp.readRegU8 0x4f, BusOp.readRegU8 0x4f]
    ∧ (∃ k, k ≤ 2 ∧
        (Vl6180x.ReadLux (regFile highByteFirst).traced 2 ⟨0x29, 0⟩ 0x09 (oneReg 0x14 0xFF, [])).state.2
        = [] ++ ([BusOp.readRegU8 VL6180X_REG_SYSTEM_INTERRUPT_CONFIG,
            BusOp.writeBytes (Vl6180x.bytesBuffer VL6180X_REG_SYSTEM_INTERRUPT_CONFIG
              [(0xFF &&& 0xC7) ||| 0x20]),
            BusOp.writeBytes (Vl6180x.bytesBuffer VL6180X_REG_SYSALS_INTEGRATION_PERIOD_HI [0]),
            BusOp.writeBytes (Vl6180x.bytesBuffer VL6180X_REG_SYSALS_INTEGRATION_PERIOD_LO [100]),
            BusOp.writeBytes (Vl6180x.bytesBuffer VL6180X_REG_SYSALS_ANALOGUE_GAIN
              [0x40 ||| min 0x09 7]),
            BusOp.writeBytes (Vl6180x.bytesBuffer VL6180X_REG_SYSALS_START [0x01])]
          ++ List.replicate k (BusOp.readRegU8 VL6180X_REG_RESULT_INTERRUPT_STATUS_GPIO)))
    ∧ ((0xFF &&& 0xC7) ||| 0x20) &&& 0xC7 = 0xFF &&& 0xC7 :=
  ⟨⟨by decide, rfl⟩, rfl,
    (C10_ReadLux_configures_then_triggers (regFile highByteFirst) 2 ⟨0x29, 0⟩ 0x09 0xFF
      (oneReg 0x14 0xFF) (oneReg 0x14 0xFF) [] (by decide) rfl).1,
    (C10_ReadLux_configures_then_triggers (regFile highByteFirst) 2 ⟨0x29, 0⟩ 0x09 0xFF
      (oneReg 0x14 0xFF) (oneReg 0x14 0xFF) [] (by decide) rfl).2.2.2.1⟩

end Vl6180xDriver
